import Mathlib

/-!
Verification development for the discord-azure-boot repository
(src/index.ts): a shallow embedding of the power-state reconciliation
core — the `PowerRequest` state machine (`poll`), the `powerState`
status decoder, the concurrency-dedup guard (`OngoingCount` and the
command flow around it), the duration-estimate computation, the
`BootRequest` workflow, and the fixed-interval poller's scheduling.

External collaborators (the Azure compute client, the MongoDB store,
and the Discord chat API) are modelled by an environment record that
supplies, for each call a single poll tick can make, either a result
or a thrown exception.  Machine integers (unix millisecond timestamps)
are modelled as `Int`; the JavaScript floating-point mean of history
durations is modelled exactly as a rational.
-/

/-- Translated from the `VMPowerState` enum in src/index.ts: the power
state of an Azure virtual machine. -/
inductive VMPowerState
  | Deallocated
  | Deallocating
  | Running
  | Starting
  | Stopped
  | Stopping
deriving DecidableEq

/-- Translated from src/index.ts: the string value of each
`VMPowerState` enum member (`"PowerState/..."`). -/
def vmPowerStateStr : VMPowerState → String
  | .Deallocated => "PowerState/deallocated"
  | .Deallocating => "PowerState/deallocating"
  | .Running => "PowerState/running"
  | .Starting => "PowerState/starting"
  | .Stopped => "PowerState/stopped"
  | .Stopping => "PowerState/stopping"

/-- Translated from `vmPowerStateFromStr` in src/index.ts: determine
which `VMPowerState` a string represents, `undefined` (here `none`) if
there is no valid mapping. -/
def vmPowerStateFromStr (code : String) : Option VMPowerState :=
  if code = "PowerState/deallocated" then some .Deallocated
  else if code = "PowerState/deallocating" then some .Deallocating
  else if code = "PowerState/running" then some .Running
  else if code = "PowerState/starting" then some .Starting
  else if code = "PowerState/stopped" then some .Stopped
  else if code = "PowerState/stopping" then some .Stopping
  else none

/-- Translated from `nonTerminalForPower` in src/index.ts: the
non-terminal state related to a terminal state; throws (`Except.error`)
if the argument is not a terminal state. -/
def nonTerminalForPower (power : VMPowerState) : Except String VMPowerState :=
  match power with
  | .Deallocated => .ok .Deallocating
  | .Running => .ok .Starting
  | .Stopped => .ok .Stopping
  | p => .error ("power state " ++ vmPowerStateStr p ++ " must be terminal, was not")

/-- Translated from the `VMState` interface in src/index.ts. -/
structure VMState where
  code : String
  friendlyName : String
  terminal : Bool
deriving DecidableEq

/-- Translated from `vmStateFromPower` in src/index.ts: creates a
`VMState` for a `VMPowerState`; `terminal` is false exactly for
Deallocating, Starting and Stopping. -/
def vmStateFromPower (power : VMPowerState) : VMState :=
  { code := vmPowerStateStr power
    friendlyName :=
      match power with
      | .Deallocated => "Turned Off"
      | .Deallocating => "Turning Off"
      | .Running => "Running"
      | .Starting => "Starting"
      | .Stopped => "Stopped"
      | .Stopping => "Stopping"
    terminal :=
      !(power = VMPowerState.Deallocating ∨ power = VMPowerState.Starting
        ∨ power = VMPowerState.Stopping : Bool) }

/-- Translated from the `VMConfig` shape in src/lib-bot-config
(resource group, Azure name, user-facing friendly name). -/
structure VMConfig where
  resourceGroup : String
  azureName : String
  friendlyName : String
deriving DecidableEq

/-- Translated from `DiscordCtrlMsgID` in src/index.ts: tagged union
identifying the control message — either a regular channel text
message or a slash-command interaction. -/
inductive DiscordCtrlMsgID
  | txtMsg (guildID channelID msgID : String)
  | interaction (id token : String)
deriving DecidableEq

/-- Translated from the `in_progress` stage payload of
`PowerRequestData` in src/index.ts.  `start_power` is the power state
observed when the request entered `in_progress`; it is `none` when that
observation was `undefined`. -/
structure InProgressData where
  time : Int
  start_power : Option VMPowerState
deriving DecidableEq

/-- Translated from the `success` stage payload of `PowerRequestData`
in src/index.ts. -/
structure SuccessData where
  time : Int
deriving DecidableEq

/-- Translated from the `error` stage payload of `PowerRequestData` in
src/index.ts. -/
structure ErrorData where
  time : Int
  internal : String
  user : String
deriving DecidableEq

/-- Translated from the `stage` field of `PowerRequestData` in
src/index.ts: a `current` tag string plus one optional payload object
per named stage (the `requested` payload is empty and omitted). -/
structure PowerStage where
  current : String
  flip_flop : Bool
  in_progress : Option InProgressData := none
  success : Option SuccessData := none
  error : Option ErrorData := none
deriving DecidableEq

/-- Translated from `PowerRequestData` in src/index.ts: the document
serialized for one power request. -/
structure PowerRequestData where
  ctrl_msg_id : DiscordCtrlMsgID
  vm_cfg : VMConfig
  target_power : VMPowerState
  stage : PowerStage
deriving DecidableEq

/-- Translated from the `PowerRequest` constructor in src/index.ts:
initializes the document with stage `requested` and `flip_flop = true`,
then throws if the target power is not a terminal state. -/
def mkPowerRequestData (ctrlMsgID : DiscordCtrlMsgID) (vmCfg : VMConfig)
    (targetPower : VMPowerState) : Except String PowerRequestData :=
  let d : PowerRequestData :=
    { ctrl_msg_id := ctrlMsgID
      vm_cfg := vmCfg
      target_power := targetPower
      stage := { current := "requested", flip_flop := true } }
  if (vmStateFromPower targetPower).terminal = false then
    .error ("target power \"" ++ vmPowerStateStr targetPower ++ "\" must be a terminal state")
  else
    .ok d

/-- Helper: Boolean test that `needle` occurs as a contiguous
substring of `hay`, modelling JavaScript `hay.indexOf(needle) !== -1`. -/
def strContains (hay needle : String) : Bool :=
  hay.toList.tails.any (fun t => needle.toList.isPrefixOf t)

/-- Translated from the Azure `instanceView` result consumed by
`PowerRequest.powerState` in src/index.ts: an optional list of status
code strings. -/
structure VMInstanceView where
  statuses : Option (List String)
deriving DecidableEq

/-- Translated from `PowerRequest.powerState` in src/index.ts: keep the
statuses whose code contains the substring `"PowerState/"` (the source
tests `code.indexOf("PowerState/") !== -1`), take the last one, and
decode it with `vmPowerStateFromStr`; `none` when the status list is
missing, no status matches, or the decode fails. -/
def powerStateOf (view : VMInstanceView) : Option VMPowerState :=
  match view.statuses with
  | none => none
  | some sts =>
    let powerStates := sts.filter (fun c => strContains c "PowerState/")
    match powerStates.getLast? with
    | none => none
    | some code => vmPowerStateFromStr code

/-- Partial model of the Discord embed built during a poll tick,
carrying the fields the verified properties mention: the "Server
Status" value and the estimated total duration (the source's `avrgMs`,
in milliseconds, before it is formatted as `mm:ss`). -/
structure EmbedModel where
  status : Option String
  estimate : Option ℚ
deriving DecidableEq

/-- The three Azure control-plane action calls a poll tick can issue. -/
inductive CloudActionKind
  | beginStart
  | beginPowerOff
  | beginDeallocate
deriving DecidableEq

/-- Observable collaborator calls made during a poll tick, in order:
the Azure `instanceView` status query, the history `find` on the
`power_requests` collection, a control-message edit (with its content
string and embed), a cloud action call, and a log line. -/
inductive TickAction
  | instanceView
  | historyFind
  | editMsg (content : Option String) (embed : Option EmbedModel)
  | cloud (k : CloudActionKind)
  | logError (msg : String)
deriving DecidableEq

/-- Behaviour of the external collaborators during one poll tick: the
contents of the `power_requests` collection, and for each call the
tick can make, either a result or a thrown exception
(`Except.error`). `now` is the tick's `moment().valueOf()` unix
millisecond clock. -/
structure Env where
  store : List PowerRequestData
  instanceView : Except String VMInstanceView
  dbOk : Except String Unit
  editOk : Except String Unit
  actionOk : Except String Unit
  errEditOk : Except String Unit
  now : Int

/-- Translated from the history `find` filter in `PowerRequest.poll`
(src/index.ts line 602): documents with the same `vm_cfg`, with
`stage.current = "success"`, and with the same
`stage.in_progress.start_power`.  Note the filter does NOT constrain
`target_power`, and the query has no sort. -/
def histMatches (store : List PowerRequestData) (vm : VMConfig)
    (sp : Option VMPowerState) : List PowerRequestData :=
  store.filter (fun doc =>
    doc.vm_cfg == vm && doc.stage.current == "success" &&
      (match doc.stage.in_progress with
       | some jp => jp.start_power == sp
       | none => false))

/-- Translated from the per-document delta in `PowerRequest.poll`:
`doc.stage.success.time - doc.stage.in_progress.time` (milliseconds);
a missing payload contributes 0 (filtered documents always carry
both payloads in well-formed stores). -/
def histDelta (doc : PowerRequestData) : Int :=
  (match doc.stage.success with | some s => s.time | none => 0)
    - (match doc.stage.in_progress with | some j => j.time | none => 0)

/-- Translated from the duration-estimate block of `PowerRequest.poll`
(src/index.ts lines 598-613): take at most 10 matching history
documents (`.limit(10)`, no sort, so the first ten in collection
order), and show the mean `avrgMs = totalDiffs / otherReqs.length`
when at least one matched; no estimate otherwise. -/
def durationEstimate (store : List PowerRequestData) (vm : VMConfig)
    (sp : Option VMPowerState) : Option ℚ :=
  let otherReqs := (histMatches store vm sp).take 10
  if otherReqs.length > 0 then
    some ((((otherReqs.map histDelta).sum : ℤ) : ℚ) / (otherReqs.length : ℚ))
  else none

/-- Translated from the action `switch` in `PowerRequest.poll`
(src/index.ts lines 669-679): the single cloud action for each target
power; no case matches a non-terminal target (the switch falls
through without a call). -/
def cloudActionFor : VMPowerState → Option CloudActionKind
  | .Deallocated => some .beginDeallocate
  | .Running => some .beginStart
  | .Stopped => some .beginPowerOff
  | _ => none

/-- Continuation of `pollAct` after the action switch: the source
computes `nonTerminalForPower(target)` (which throws for a
non-terminal target) and then performs the final control-message
edit. -/
def pollActTail (env : Env) (d : PowerRequestData) (embed : EmbedModel)
    (tr : List TickAction) : Except String Unit × PowerRequestData × List TickAction :=
  match nonTerminalForPower d.target_power with
  | .error e => (.error e, d, tr)
  | .ok _ =>
    match env.editOk with
    | .ok _ => (.ok (), d, tr ++ [TickAction.editMsg none (some embed)])
    | .error e => (.error e, d, tr ++ [TickAction.editMsg none (some embed)])

/-- Translated from the tail of `PowerRequest.poll` (src/index.ts
lines 668-686): issue the cloud action for the target power (which may
throw), then edit the control message with the "please wait" embed. -/
def pollAct (env : Env) (d : PowerRequestData) (embed : EmbedModel)
    (tr : List TickAction) : Except String Unit × PowerRequestData × List TickAction :=
  match cloudActionFor d.target_power with
  | some k =>
    match env.actionOk with
    | .error e => (.error e, d, tr ++ [TickAction.cloud k])
    | .ok _ => pollActTail env d embed (tr ++ [TickAction.cloud k])
  | none => pollActTail env d embed tr

/-- Translated from the branch structure of `PowerRequest.poll` after
the duration fields (src/index.ts lines 627-686): with a known
non-terminal power only edit and stay; with the target power reached
record `success` and edit; otherwise (known terminal non-target power,
or unknown power) fall through to the action switch. -/
def pollRest (env : Env) (d : PowerRequestData) (ps : Option VMPowerState)
    (est : Option ℚ) (tr : List TickAction) :
    Except String Unit × PowerRequestData × List TickAction :=
  match ps with
  | some p =>
    let st := vmStateFromPower p
    let embed : EmbedModel := { status := some st.friendlyName, estimate := est }
    if st.terminal = false then
      match env.editOk with
      | .ok _ => (.ok (), d, tr ++ [TickAction.editMsg none (some embed)])
      | .error e => (.error e, d, tr ++ [TickAction.editMsg none (some embed)])
    else if p = d.target_power then
      let stage3 := { d.stage with current := "success", success := some { time := env.now } }
      let d3 := { d with stage := stage3 }
      match env.editOk with
      | .ok _ => (.ok (), d3, tr ++ [TickAction.editMsg none (some embed)])
      | .error e => (.error e, d3, tr ++ [TickAction.editMsg none (some embed)])
    else
      pollAct env d embed tr
  | none =>
    pollAct env d { status := some "Unknown", estimate := est } tr

/-- Translated from the `try` body of `PowerRequest.poll` (src/index.ts
lines 544-686): toggle `flip_flop`, query the power state (may throw),
move `requested` to `in_progress` recording the observed start power,
compute the duration estimate when an `in_progress` payload exists
(the history `find` may throw), then continue in `pollRest`.  Returns
the outcome, the data as mutated so far, and the collaborator-call
trace. -/
def pollBody (env : Env) (d0 : PowerRequestData) :
    Except String Unit × PowerRequestData × List TickAction :=
  let d1 := { d0 with stage := { d0.stage with flip_flop := !d0.stage.flip_flop } }
  match env.instanceView with
  | .error e => (.error e, d1, [TickAction.instanceView])
  | .ok view =>
    let ps := powerStateOf view
    let ipStage := { d1.stage with current := "in_progress", in_progress := some { time := env.now, start_power := ps } }
    let d2 := if d1.stage.current = "requested" then { d1 with stage := ipStage } else d1
    match d2.stage.in_progress with
    | some ip =>
      match env.dbOk with
      | .error e => (.error e, d2, [TickAction.instanceView, TickAction.historyFind])
      | .ok _ =>
        pollRest env d2 ps (durationEstimate env.store d2.vm_cfg ip.start_power)
          [TickAction.instanceView, TickAction.historyFind]
    | none => pollRest env d2 ps none [TickAction.instanceView]

/-- The user-facing text of the catch-block control-message edit in
`PowerRequest.poll`. -/
def errUserMsg (u : String) : String := ":warning: Sorry, " ++ u ++ "."

/-- Translated from `PowerRequest.poll` in src/index.ts (lines
543-708), `try` body plus `catch` block: on any exception the stage
becomes `error` (with timestamp, internal diagnostic, and generic
user-facing string), the failure is logged, and a best-effort
control-message edit is attempted whose own failure is only logged.
The function is total: a tick never re-raises. -/
def poll (env : Env) (d : PowerRequestData) : PowerRequestData × List TickAction :=
  match pollBody env d with
  | (.ok _, d1, tr) => (d1, tr)
  | (.error e, d1, tr) =>
    let errStage := { d1.stage with current := "error", error := some { time := env.now, internal := e, user := "an unexpected error occurred" } }
    let dErr := { d1 with stage := errStage }
    let tr1 := tr ++ [TickAction.logError "failed to poll PowerRequest"]
    match env.errEditOk with
    | .ok _ =>
      (dErr, tr1 ++ [TickAction.editMsg (some (errUserMsg "an unexpected error occurred")) none])
    | .error _ =>
      (dErr, tr1 ++ [TickAction.editMsg (some (errUserMsg "an unexpected error occurred")) none,
        TickAction.logError "while trying to inform the user of the failed power request encountered the error"])

/-- Apply a sequence of poll ticks, as the Poller does, threading the
persisted data. -/
def pollSeq (envs : List Env) (d : PowerRequestData) : PowerRequestData :=
  envs.foldl (fun x e => (poll e x).1) d

/-- The sequence of persisted `stage.current` values along a run: the
initial stage followed by the stage after each tick. -/
def stageTrace : List Env → PowerRequestData → List String
  | [], d => [d.stage.current]
  | e :: es, d => d.stage.current :: stageTrace es (poll e d).1

/-- Rank of a stage tag in the forward order
`requested < in_progress < {success, error}`. -/
def stageRank (s : String) : Nat :=
  if s = "in_progress" then 1
  else if s = "success" then 2
  else if s = "error" then 2
  else 0

/-- A stage tag is terminal when it is `success` or `error`. -/
def isTerminalStage (s : String) : Prop := s = "success" ∨ s = "error"

/-- Translated from `PowerRequest.OngoingCount` in src/index.ts (lines
483-485): counts persisted power requests for the given VM whose
`stage.current` is `"in_progress"` — and only that stage; documents
still in stage `"requested"` are not counted. -/
def OngoingCount (store : List PowerRequestData) (vmCfg : VMConfig) : Nat :=
  (store.filter (fun d =>
    d.vm_cfg.friendlyName == vmCfg.friendlyName && d.stage.current == "in_progress")).length

/-- Following the spec's words for the concurrency guard ("count
persisted requests for that VM whose stage is non-terminal", i.e.
`requested` or `in_progress`), for comparison with `OngoingCount`,
which is translated from the source. -/
def specNonTerminalCount (store : List PowerRequestData) (vmCfg : VMConfig) : Nat :=
  (store.filter (fun d =>
    d.vm_cfg.friendlyName == vmCfg.friendlyName &&
      (d.stage.current == "requested" || d.stage.current == "in_progress"))).length

/-- Translated from `PowerRequest.save` in src/index.ts:
`updateOne(pk, {$set: data}, {upsert: true})` keyed by `ctrl_msg_id` —
replace the document carrying the same primary key, or append a new
document. -/
def saveUpsert (store : List PowerRequestData) (d : PowerRequestData) :
    List PowerRequestData :=
  if store.any (fun x => x.ctrl_msg_id == d.ctrl_msg_id) then
    store.map (fun x => if x.ctrl_msg_id == d.ctrl_msg_id then d else x)
  else store ++ [d]

/-- Outcome of one slash-command invocation: whether the busy
rejection was sent, and the resulting `power_requests` collection. -/
structure CmdResult where
  rejectedBusy : Bool
  power_requests : List PowerRequestData
deriving DecidableEq

/-- Translated from the `boot` branch of `Bot.onDiscordCmd`
(src/index.ts lines 1186-1216): when `OngoingCount` is positive, reply
busy and create no document; otherwise `BootRequest.initBoot`
constructs a PowerRequest targeting Running and saves it immediately —
still in stage `requested`, since no poll tick runs on it here
(`BootRequest.poll` is a no-op). -/
def onBootCmd (store : List PowerRequestData) (vmCfg : VMConfig)
    (ctrlMsgID : DiscordCtrlMsgID) : Except String CmdResult :=
  if OngoingCount store vmCfg > 0 then
    .ok { rejectedBusy := true, power_requests := store }
  else
    match mkPowerRequestData ctrlMsgID vmCfg .Running with
    | .error e => .error e
    | .ok d => .ok { rejectedBusy := false, power_requests := saveUpsert store d }

/-- Translated from the `shutdown` branch of `Bot.onDiscordCmd`
(src/index.ts lines 1217-1238): when `OngoingCount` is positive, reply
busy and create no document; otherwise construct a PowerRequest
targeting Deallocated, run one poll tick on it, and save the polled
document. -/
def onShutdownCmd (env : Env) (store : List PowerRequestData) (vmCfg : VMConfig)
    (ctrlMsgID : DiscordCtrlMsgID) : Except String CmdResult :=
  if OngoingCount store vmCfg > 0 then
    .ok { rejectedBusy := true, power_requests := store }
  else
    match mkPowerRequestData ctrlMsgID vmCfg .Deallocated with
    | .error e => .error e
    | .ok d => .ok { rejectedBusy := false, power_requests := saveUpsert store (poll env d).1 }

/-- Translated from the `booting` / `shutting_down` stage payloads of
`BootRequestData` in src/index.ts: the child PowerRequest's database
id (object ids modelled as naturals). -/
structure BootChildRef where
  power_request_id : Nat
deriving DecidableEq

/-- Translated from the `running` stage payload of `BootRequestData`
in src/index.ts. -/
structure BootRunningData where
  expire_time : Int
  expire_ctrl_msg_id : Option DiscordCtrlMsgID := none
deriving DecidableEq

/-- Translated from the `stage` field of `BootRequestData` in
src/index.ts. -/
structure BootStage where
  current : String
  booting : Option BootChildRef := none
  running : Option BootRunningData := none
  shutting_down : Option BootChildRef := none
deriving DecidableEq

/-- Translated from `BootRequestData` in src/index.ts. -/
structure BootRequestData where
  vm_cfg : VMConfig
  follow_up_guildID : String
  follow_up_channelID : String
  stage : BootStage
deriving DecidableEq

/-- Translated from `BootRequest.poll` in src/index.ts (lines
880-888): the method body consists solely of TODO comments — it loads
nothing, changes no field, and calls no collaborator, whatever the
stage or the child PowerRequest's state. -/
def bootRequestPoll (d : BootRequestData) : BootRequestData × List TickAction :=
  (d, [])

/-- Translated from src/index.ts: the poll interval in milliseconds. -/
def ONGOING_POWER_REQUEST_INTERVAL : Nat := 5000

/-- Modelled from `setInterval(this.pollOngoing.bind(this),
ONGOING_POWER_REQUEST_INTERVAL)` in `Bot.init` (src/index.ts line
1141): JavaScript `setInterval` fires its callback at every multiple
of the interval whether or not the promise returned by the previous
asynchronous invocation has settled, so poller tick `k` starts at time
`k * interval` (milliseconds). -/
def tickStartTime (k : Nat) : Nat := k * ONGOING_POWER_REQUEST_INTERVAL

/-- The time at which poller tick `k`'s fan-out settles: its start
time plus the duration `dur k` that its `Promise.all` over the pending
requests takes (determined by the collaborators). -/
def tickSettleTime (dur : Nat → Nat) (k : Nat) : Nat := tickStartTime k + dur k

/-- Poller tick `k` starts before tick `j`'s fan-out has settled. -/
def ticksOverlap (dur : Nat → Nat) (j k : Nat) : Prop :=
  j < k ∧ tickStartTime k < tickSettleTime dur j

/-- Following the spec's words for the status decoder ("the most
recent code matching a 'power state' prefix is extracted"): keep the
statuses whose code STARTS WITH `"PowerState/"`, take the last one,
decode it.  Compared against `powerStateOf`, which is translated from
the source and keeps codes merely CONTAINING the marker. -/
def specPowerStateOf (view : VMInstanceView) : Option VMPowerState :=
  match view.statuses with
  | none => none
  | some sts =>
    let powerStates := sts.filter (fun c => ("PowerState/".toList).isPrefixOf c.toList)
    match powerStates.getLast? with
    | none => none
    | some code => vmPowerStateFromStr code

/-- Following the spec's words for the duration estimate (prior
success requests "sharing the same `startPower`/`targetPower` pair"):
like `histMatches` but additionally requiring the same
`target_power`.  Compared against `histMatches`, which is translated
from the source and does not constrain `target_power`. -/
def specPairMatches (store : List PowerRequestData) (d : PowerRequestData)
    (sp : Option VMPowerState) : List PowerRequestData :=
  store.filter (fun doc =>
    doc.vm_cfg == d.vm_cfg && doc.stage.current == "success" &&
      doc.target_power == d.target_power &&
      (match doc.stage.in_progress with
       | some jp => jp.start_power == sp
       | none => false))

/-- A tick trace is free of cloud action calls. -/
def cloudActionFree (tr : List TickAction) : Bool :=
  tr.all (fun a => match a with | .cloud _ => false | _ => true)

/-- A tick trace contains a control-message edit carrying an embed. -/
def hasEmbedEdit (tr : List TickAction) : Bool :=
  tr.any (fun a => match a with | .editMsg _ (some _) => true | _ => false)

/-- The estimated-duration values of the embeds shown by a tick
trace, in order. -/
def shownEstimates (tr : List TickAction) : List (Option ℚ) :=
  tr.filterMap (fun a => match a with | .editMsg _ (some em) => some em.estimate | _ => none)

/-- Concrete virtual machine configuration used by witnesses below. -/
def vmA : VMConfig := { resourceGroup := "rg", azureName := "vm-a", friendlyName := "ServerA" }

/-- Concrete interaction control-message id. -/
def ctrlA : DiscordCtrlMsgID := .interaction "ia" "ta"

/-- A second concrete interaction control-message id. -/
def ctrlB : DiscordCtrlMsgID := .interaction "ib" "tb"

/-- The document the constructor produces for `ctrlA`/`vmA` targeting
Running (as `BootRequest.initBoot` persists it). -/
def reqA : PowerRequestData :=
  { ctrl_msg_id := ctrlA, vm_cfg := vmA, target_power := .Running,
    stage := { current := "requested", flip_flop := true } }

/-- The document the constructor produces for `ctrlB`/`vmA` targeting
Running. -/
def reqB : PowerRequestData :=
  { ctrl_msg_id := ctrlB, vm_cfg := vmA, target_power := .Running,
    stage := { current := "requested", flip_flop := true } }

/-- `reqA` after one flip-flop toggle (the mutation a failing first
tick leaves behind). -/
def reqAflip : PowerRequestData :=
  { ctrl_msg_id := ctrlA, vm_cfg := vmA, target_power := .Running,
    stage := { current := "requested", flip_flop := false } }

/-- An environment where every collaborator call succeeds. -/
def envAllOk (store : List PowerRequestData) (view : VMInstanceView) (now : Int) : Env :=
  { store := store, instanceView := .ok view, dbOk := .ok (), editOk := .ok (),
    actionOk := .ok (), errEditOk := .ok (), now := now }

/-- An environment whose Azure status query throws. -/
def envAzureDown : Env :=
  { store := [], instanceView := .error "azure down", dbOk := .ok (), editOk := .ok (),
    actionOk := .ok (), errEditOk := .ok (), now := 1000 }

/-- A status view reporting the non-terminal power `starting`. -/
def viewStarting : VMInstanceView := { statuses := some ["PowerState/starting"] }

/-- A status view reporting the terminal power `deallocated`. -/
def viewDeallocated : VMInstanceView := { statuses := some ["PowerState/deallocated"] }

/-- A status view reporting the non-terminal power `deallocating`. -/
def viewDeallocating : VMInstanceView := { statuses := some ["PowerState/deallocating"] }

/-- A request already in stage `success` (target Running, reached
earlier), as retained in the store as history. -/
def reqSucc : PowerRequestData :=
  { ctrl_msg_id := ctrlA, vm_cfg := vmA, target_power := .Running,
    stage := { current := "success", flip_flop := true,
               in_progress := some { time := 0, start_power := some .Deallocated },
               success := some { time := 50000 } } }

/-- A persisted success-stage request for `vmA` that started from
`Running` and targeted `Stopped`, taking 60000 ms. -/
def histDocStopped : PowerRequestData :=
  { ctrl_msg_id := .txtMsg "g" "c" "m1", vm_cfg := vmA, target_power := .Stopped,
    stage := { current := "success", flip_flop := true,
               in_progress := some { time := 10000, start_power := some .Running },
               success := some { time := 70000 } } }

/-- An in-progress request for `vmA` that started from `Running` and
targets `Deallocated`. -/
def reqDeall : PowerRequestData :=
  { ctrl_msg_id := ctrlB, vm_cfg := vmA, target_power := .Deallocated,
    stage := { current := "in_progress", flip_flop := false,
               in_progress := some { time := 100000, start_power := some .Running } } }

/-- A boot request whose stage is `booting` with a child PowerRequest
reference. -/
def bootD : BootRequestData :=
  { vm_cfg := vmA, follow_up_guildID := "g", follow_up_channelID := "c",
    stage := { current := "booting", booting := some { power_request_id := 7 } } }

/-- A status view reporting the terminal power `running`. -/
def viewRunning : VMInstanceView := { statuses := some ["PowerState/running"] }

/-- C7: for every target power `t`, constructing a `PowerRequest` with
target `t` succeeds exactly when `t` is one of the terminal power
codes Deallocated, Running, or Stopped; for any non-terminal code the
constructor throws its validation error (so nothing can be saved). -/
theorem mk_power_request_ok_iff_terminal :
    ∀ (c : DiscordCtrlMsgID) (v : VMConfig) (t : VMPowerState),
      (mkPowerRequestData c v t).toOption.isSome = true ↔
        (t = VMPowerState.Deallocated ∨ t = VMPowerState.Running ∨ t = VMPowerState.Stopped) := by
  intro c v t
  cases t <;> simp [mkPowerRequestData, vmStateFromPower, Except.toOption]

/-- C8 counterexample: on a status list whose last `"PowerState/"`-
containing code is not `"PowerState/"`-prefixed, the source decoder
(`indexOf`-based) returns unknown while the spec's prefix reading
would return Running — so the claim, read as prefix matching, is false
on the code. -/
theorem power_state_contains_vs_prefix_cex :
    powerStateOf { statuses := some ["PowerState/running", "xPowerState/running"] } = none ∧
    specPowerStateOf { statuses := some ["PowerState/running", "xPowerState/running"] } =
      some VMPowerState.Running := by
  constructor <;> decide

/-- C8 amended: `powerState()` equals the decode of the LAST status
code CONTAINING the substring `"PowerState/"`, and is unknown exactly
when that decode pipeline produces nothing (missing status list, no
containing code, or an unmappable last containing code). -/
theorem power_state_decodes_last_containing_code :
    ∀ view : VMInstanceView,
      powerStateOf view =
        (((view.statuses.getD []).filter (fun c => strContains c "PowerState/")).getLast?).bind
          vmPowerStateFromStr := by
  intro view
  obtain ⟨sts⟩ := view
  cases sts with
  | none => rfl
  | some l =>
    simp only [powerStateOf, Option.getD]
    cases h : (l.filter fun c => strContains c "PowerState/").getLast? <;> simp [h]

/-- C9 counterexample: with the source's 5000 ms `setInterval`
schedule, a tick lasting 6000 ms is still unsettled when the next tick
starts — refuting "the same process never starts a new tick before the
previous tick's fan-out has fully settled". -/
theorem poller_ticks_can_overlap_cex : ticksOverlap (fun _ => 6000) 0 1 := by
  constructor <;> decide

/-- C9 amended: the poller starts tick `k+1` exactly one interval
after tick `k` regardless of settlement, so consecutive ticks overlap
exactly when a tick's fan-out outlasts the 5000 ms interval. -/
theorem poller_tick_overlap_iff :
    ∀ (dur : Nat → Nat) (k : Nat),
      ticksOverlap dur k (k + 1) ↔ ONGOING_POWER_REQUEST_INTERVAL < dur k := by
  intro dur k
  unfold ticksOverlap tickSettleTime tickStartTime ONGOING_POWER_REQUEST_INTERVAL
  omega

/-- C10: `BootRequest.poll` is a no-op — on a `booting` request (whose
child may long have succeeded) it changes nothing and calls no
collaborator, so it does not implement the booting → running →
shutting_down → success workflow the spec requires. -/
theorem boot_request_poll_is_noop :
    bootRequestPoll bootD = (bootD, []) ∧ bootD.stage.current = "booting" :=
  ⟨rfl, rfl⟩

/-- C3: the concurrency guard counts only `in_progress` documents, so
a persisted `requested`-stage PowerRequest (exactly what a boot
command leaves behind before the first poller tick) does not block a
second boot command: the second command proceeds and a second document
for the same VM is persisted, where the spec requires rejection. -/
theorem ongoing_count_misses_requested_stage :
    onBootCmd [] vmA ctrlA = .ok { rejectedBusy := false, power_requests := [reqA] } ∧
    OngoingCount [reqA] vmA = 0 ∧
    specNonTerminalCount [reqA] vmA = 1 ∧
    onBootCmd [reqA] vmA ctrlB = .ok { rejectedBusy := false, power_requests := [reqA, reqB] } := by
  refine ⟨rfl, rfl, rfl, rfl⟩

/-- C5 counterexample: polling a request whose stage is already
`success` (target Running) while the cloud reports the VM terminal
but off (`deallocated`) reaches the action branch and issues
`beginStart` — refuting "polling a request already in success performs
no cloud action call". -/
theorem poll_on_success_issues_action_cex :
    reqSucc.stage.current = "success" ∧
    TickAction.cloud CloudActionKind.beginStart ∈ (poll (envAllOk [] viewDeallocated 100000) reqSucc).2 := by
  constructor
  · rfl
  · decide

lemma pollActTail_fst (env : Env) (d : PowerRequestData) (embed : EmbedModel)
    (tr : List TickAction) : (pollActTail env d embed tr).2.1 = d := by
  unfold pollActTail
  split
  · rfl
  · split <;> rfl

lemma pollAct_fst (env : Env) (d : PowerRequestData) (embed : EmbedModel)
    (tr : List TickAction) : (pollAct env d embed tr).2.1 = d := by
  unfold pollAct
  split
  · split
    · rfl
    · exact pollActTail_fst ..
  · exact pollActTail_fst ..

lemma pollRest_current (env : Env) (d : PowerRequestData) (ps : Option VMPowerState)
    (est : Option ℚ) (tr : List TickAction) :
    (pollRest env d ps est tr).2.1.stage.current = d.stage.current ∨
    (pollRest env d ps est tr).2.1.stage.current = "success" := by
  unfold pollRest
  dsimp only
  split
  · split_ifs with h1 h2
    · split <;> exact Or.inl rfl
    · split <;> exact Or.inr rfl
    · rw [pollAct_fst]; exact Or.inl rfl
  · rw [pollAct_fst]; exact Or.inl rfl

lemma pollBody_current (env : Env) (d : PowerRequestData) :
    (pollBody env d).2.1.stage.current = d.stage.current ∨
    (pollBody env d).2.1.stage.current = "success" ∨
    (d.stage.current = "requested" ∧ (pollBody env d).2.1.stage.current = "in_progress") := by
  unfold pollBody
  dsimp only
  split
  · exact Or.inl rfl
  · by_cases hreq : d.stage.current = "requested"
    · rw [if_pos hreq]
      dsimp only
      split
      · exact Or.inr (Or.inr ⟨hreq, rfl⟩)
      · rcases pollRest_current env _ _ _ _ with h | h
        · exact Or.inr (Or.inr ⟨hreq, h⟩)
        · exact Or.inr (Or.inl h)
    · rw [if_neg hreq]
      split
      · split
        · exact Or.inl rfl
        · rcases pollRest_current env _ _ _ _ with h | h
          · exact Or.inl h
          · exact Or.inr (Or.inl h)
      · rcases pollRest_current env _ _ _ _ with h | h
        · exact Or.inl h
        · exact Or.inr (Or.inl h)

lemma poll_current (env : Env) (d : PowerRequestData) :
    (poll env d).1.stage.current = d.stage.current ∨
    (poll env d).1.stage.current = "success" ∨
    (poll env d).1.stage.current = "error" ∨
    (d.stage.current = "requested" ∧ (poll env d).1.stage.current = "in_progress") := by
  have hc := pollBody_current env d
  unfold poll
  rcases hb : pollBody env d with ⟨exc, d1, tr⟩
  rw [hb] at hc
  cases exc with
  | ok u =>
    dsimp only at hc ⊢
    rcases hc with h | h | ⟨h1, h2⟩
    · exact Or.inl h
    · exact Or.inr (Or.inl h)
    · exact Or.inr (Or.inr (Or.inr ⟨h1, h2⟩))
  | error e =>
    dsimp only
    split <;> exact Or.inr (Or.inr (Or.inl rfl))

lemma stageRank_le_two (s : String) : stageRank s ≤ 2 := by
  unfold stageRank
  split_ifs <;> omega

lemma poll_step_rel (e : Env) (d : PowerRequestData) :
    stageRank d.stage.current ≤ stageRank (poll e d).1.stage.current ∧
    (isTerminalStage d.stage.current → isTerminalStage (poll e d).1.stage.current) := by
  rcases poll_current e d with h | h | h | ⟨h1, h2⟩
  · rw [h]; exact ⟨le_refl _, id⟩
  · rw [h]
    exact ⟨le_trans (stageRank_le_two _) (by decide), fun _ => Or.inl rfl⟩
  · rw [h]
    exact ⟨le_trans (stageRank_le_two _) (by decide), fun _ => Or.inr rfl⟩
  · rw [h1, h2]
    exact ⟨by decide, fun ht => ht.elim (fun h => absurd h (by decide)) (fun h => absurd h (by decide))⟩

lemma stageTrace_head_tail (es : List Env) (d : PowerRequestData) :
    stageTrace es d = d.stage.current :: (stageTrace es d).tail := by
  cases es <;> rfl

/-- C1: the stage only moves forward — along any run of poll ticks,
under any collaborator behaviour, consecutive persisted stages never
decrease in the order `requested < in_progress < {success, error}`,
and a terminal stage is never left for a non-terminal one. -/
theorem power_request_stage_only_moves_forward (d : PowerRequestData) (envs : List Env) :
    List.Chain'
      (fun s t => stageRank s ≤ stageRank t ∧ (isTerminalStage s → isTerminalStage t))
      (stageTrace envs d) := by
  induction envs generalizing d with
  | nil => simp [stageTrace]
  | cons e es ih =>
    rw [stageTrace, stageTrace_head_tail es (poll e d).1, List.chain'_cons]
    refine ⟨poll_step_rel e d, ?_⟩
    rw [← stageTrace_head_tail es (poll e d).1]
    exact ih (poll e d).1

lemma cloudActionFree_append (a b : List TickAction) :
    cloudActionFree (a ++ b) = (cloudActionFree a && cloudActionFree b) :=
  List.all_append ..

lemma pollRest_nonterminal_eq (env : Env) (d : PowerRequestData) (p : VMPowerState)
    (est : Option ℚ) (tr : List TickAction)
    (hterm : (vmStateFromPower p).terminal = false)
    (hedit : env.editOk = .ok ()) :
    pollRest env d (some p) est tr =
      (.ok (), d, tr ++ [TickAction.editMsg none
        (some { status := some (vmStateFromPower p).friendlyName, estimate := est })]) := by
  unfold pollRest
  dsimp only
  rw [if_pos hterm, hedit]

lemma pollRest_success_eq (env : Env) (d : PowerRequestData) (p : VMPowerState)
    (est : Option ℚ) (tr : List TickAction)
    (hterm : ¬(vmStateFromPower p).terminal = false)
    (hpt : p = d.target_power)
    (hedit : env.editOk = .ok ()) :
    pollRest env d (some p) est tr =
      (.ok (), { d with stage := { d.stage with current := "success", success := some { time := env.now } } },
        tr ++ [TickAction.editMsg none
          (some { status := some (vmStateFromPower p).friendlyName, estimate := est })]) := by
  unfold pollRest
  dsimp only
  rw [if_neg hterm, if_pos hpt, hedit]

lemma pollRest_act_eq (env : Env) (d : PowerRequestData) (p : VMPowerState)
    (est : Option ℚ) (tr : List TickAction)
    (hterm : ¬(vmStateFromPower p).terminal = false)
    (hpt : ¬p = d.target_power) :
    pollRest env d (some p) est tr =
      pollAct env d { status := some (vmStateFromPower p).friendlyName, estimate := est } tr := by
  unfold pollRest
  dsimp only
  rw [if_neg hterm, if_neg hpt]

lemma pollRest_none_eq (env : Env) (d : PowerRequestData) (est : Option ℚ)
    (tr : List TickAction) :
    pollRest env d none est tr = pollAct env d { status := some "Unknown", estimate := est } tr :=
  rfl

lemma pollAct_all_ok_eq (env : Env) (d : PowerRequestData) (embed : EmbedModel)
    (tr : List TickAction)
    (hterm : (vmStateFromPower d.target_power).terminal = true)
    (hact : env.actionOk = .ok ())
    (hedit : env.editOk = .ok ()) :
    ∃ k, pollAct env d embed tr =
      (.ok (), d, (tr ++ [TickAction.cloud k]) ++ [TickAction.editMsg none (some embed)]) := by
  cases htp : d.target_power with
  | Deallocated =>
    refine ⟨.beginDeallocate, ?_⟩
    unfold pollAct pollActTail
    rw [htp, hact, hedit]
    rfl
  | Running =>
    refine ⟨.beginStart, ?_⟩
    unfold pollAct pollActTail
    rw [htp, hact, hedit]
    rfl
  | Stopped =>
    refine ⟨.beginPowerOff, ?_⟩
    unfold pollAct pollActTail
    rw [htp, hact, hedit]
    rfl
  | Deallocating => rw [htp] at hterm; exact absurd hterm (by decide)
  | Starting => rw [htp] at hterm; exact absurd hterm (by decide)
  | Stopping => rw [htp] at hterm; exact absurd hterm (by decide)

lemma pollRest_no_cloud (env : Env) (d : PowerRequestData) (p : VMPowerState)
    (est : Option ℚ) (tr : List TickAction)
    (hconv : p = d.target_power ∨ (vmStateFromPower p).terminal = false)
    (htr : cloudActionFree tr = true) :
    cloudActionFree (pollRest env d (some p) est tr).2.2 = true := by
  unfold pollRest
  dsimp only
  by_cases hterm : (vmStateFromPower p).terminal = false
  · rw [if_pos hterm]
    split <;> (dsimp only; rw [cloudActionFree_append, htr]; rfl)
  · have hpt : p = d.target_power := hconv.resolve_right hterm
    rw [if_neg hterm, if_pos hpt]
    split <;> (dsimp only; rw [cloudActionFree_append, htr]; rfl)

lemma pollBody_no_cloud (env : Env) (d : PowerRequestData) (view : VMInstanceView)
    (p : VMPowerState)
    (hview : env.instanceView = .ok view)
    (hps : powerStateOf view = some p)
    (hconv : p = d.target_power ∨ (vmStateFromPower p).terminal = false) :
    cloudActionFree (pollBody env d).2.2 = true := by
  unfold pollBody
  rw [hview]
  dsimp only
  rw [hps]
  split
  all_goals try split
  all_goals first
    | rfl
    | exact pollRest_no_cloud env _ p _ _ (by first | exact hconv | (split <;> exact hconv)) rfl

lemma poll_no_cloud (env : Env) (d : PowerRequestData)
    (h : cloudActionFree (pollBody env d).2.2 = true) :
    cloudActionFree (poll env d).2 = true := by
  unfold poll
  rcases hb : pollBody env d with ⟨exc, d1, tr⟩
  rw [hb] at h
  dsimp only at h
  cases exc with
  | ok u => exact h
  | error e =>
    dsimp only
    split <;> (rw [cloudActionFree_append, cloudActionFree_append, h]; rfl)

/-- C5 amended: polling a request already in `success` performs no
cloud action call PROVIDED the queried power state is known and either
equals the target power or is a non-terminal code; when the query
reports a different terminal state (or no state), the action branch is
reached even from `success` (see the counterexample). -/
theorem poll_on_success_no_action_when_converged (env : Env) (d : PowerRequestData)
    (view : VMInstanceView) (p : VMPowerState)
    (_hcur : d.stage.current = "success")
    (hview : env.instanceView = .ok view)
    (hps : powerStateOf view = some p)
    (hconv : p = d.target_power ∨ (vmStateFromPower p).terminal = false) :
    cloudActionFree (poll env d).2 = true :=
  poll_no_cloud env d (pollBody_no_cloud env d view p hview hps hconv)

/-- Witness for C5's amended theorem at a concrete converged input. -/
theorem poll_on_success_no_action_when_converged_witness :
    cloudActionFree (poll (envAllOk [] viewRunning 777) reqSucc).2 = true :=
  poll_on_success_no_action_when_converged (envAllOk [] viewRunning 777) reqSucc
    viewRunning .Running rfl rfl (by decide) (Or.inl rfl)

/-- C2: whenever the body of a poll tick throws (any collaborator
failing), the tick still returns: the stage becomes `error` carrying
the timestamp, the internal diagnostic, and the generic user-facing
string; a best-effort control-message edit with the user-facing string
is attempted; and if even that edit fails it is only logged. -/
theorem poll_tick_catches_exceptions (env : Env) (d : PowerRequestData) (e : String)
    (d1 : PowerRequestData) (tr : List TickAction)
    (h : pollBody env d = (.error e, d1, tr)) :
    (poll env d).1.stage.current = "error" ∧
    (poll env d).1.stage.error =
      some { time := env.now, internal := e, user := "an unexpected error occurred" } ∧
    TickAction.editMsg (some (errUserMsg "an unexpected error occurred")) none ∈ (poll env d).2 ∧
    (env.errEditOk.isOk = false →
      TickAction.logError "while trying to inform the user of the failed power request encountered the error" ∈ (poll env d).2) := by
  unfold poll
  rw [h]
  dsimp only
  cases hE : env.errEditOk with
  | ok u =>
    dsimp only
    refine ⟨rfl, rfl, by simp, ?_⟩
    intro hfalse
    simp [Except.isOk, Except.toBool] at hfalse
  | error e2 =>
    dsimp only
    refine ⟨rfl, rfl, by simp, fun _ => by simp⟩

/-- Witness for C2 at a tick whose Azure status query throws. -/
theorem poll_tick_catches_exceptions_witness :
    (poll envAzureDown reqA).1.stage.current = "error" ∧
    (poll envAzureDown reqA).1.stage.error =
      some { time := 1000, internal := "azure down", user := "an unexpected error occurred" } ∧
    TickAction.editMsg (some (errUserMsg "an unexpected error occurred")) none ∈ (poll envAzureDown reqA).2 ∧
    (envAzureDown.errEditOk.isOk = false →
      TickAction.logError "while trying to inform the user of the failed power request encountered the error" ∈ (poll envAzureDown reqA).2) :=
  poll_tick_catches_exceptions envAzureDown reqA "azure down" reqAflip
    [TickAction.instanceView] rfl

/-- C4: a poll tick on a live request that observes a known
non-terminal power code issues no cloud action, performs a display
edit, and leaves the stage `in_progress`. -/
theorem nonterminal_power_tick_is_passive (env : Env) (d : PowerRequestData)
    (view : VMInstanceView) (p : VMPowerState)
    (hstage : d.stage.current = "requested" ∨ d.stage.current = "in_progress")
    (hview : env.instanceView = .ok view)
    (hps : powerStateOf view = some p)
    (hterm : (vmStateFromPower p).terminal = false)
    (hdb : env.dbOk = .ok ())
    (hedit : env.editOk = .ok ()) :
    cloudActionFree (poll env d).2 = true ∧
    hasEmbedEdit (poll env d).2 = true ∧
    (poll env d).1.stage.current = "in_progress" := by
  unfold poll pollBody
  rw [hview]
  dsimp only
  rw [hps]
  rcases hstage with hreq | hip
  · rw [if_pos hreq]
    dsimp only
    rw [hdb]
    dsimp only
    rw [pollRest_nonterminal_eq env _ p _ _ hterm hedit]
    exact ⟨rfl, rfl, rfl⟩
  · rw [if_neg (by rw [hip]; decide)]
    dsimp only
    cases hipd : d.stage.in_progress with
    | some ip =>
      rw [hdb]
      dsimp only
      rw [pollRest_nonterminal_eq env _ p _ _ hterm hedit]
      exact ⟨rfl, rfl, hip⟩
    | none =>
      rw [pollRest_nonterminal_eq env _ p _ _ hterm hedit]
      exact ⟨rfl, rfl, hip⟩

/-- Witness for C4 at a concrete tick observing `starting`. -/
theorem nonterminal_power_tick_is_passive_witness :
    cloudActionFree (poll (envAllOk [] viewStarting 5000) reqA).2 = true ∧
    hasEmbedEdit (poll (envAllOk [] viewStarting 5000) reqA).2 = true ∧
    (poll (envAllOk [] viewStarting 5000) reqA).1.stage.current = "in_progress" :=
  nonterminal_power_tick_is_passive (envAllOk [] viewStarting 5000) reqA viewStarting
    .Starting (Or.inl rfl) rfl (by decide) (by decide) rfl rfl

lemma durationEstimate_eq_mean (store : List PowerRequestData) (vm : VMConfig)
    (sp : Option VMPowerState) :
    durationEstimate store vm sp =
      (if ((histMatches store vm sp).take 10) = [] then none
       else some (((((histMatches store vm sp).take 10).map histDelta).sum : ℚ) /
         ((((histMatches store vm sp).take 10).length : ℚ)))) := by
  unfold durationEstimate
  dsimp only
  cases h : (histMatches store vm sp).take 10 with
  | nil => simp [h]
  | cons a l => simp [h]

lemma poll_shows_duration_estimate (env : Env) (d : PowerRequestData)
    (ip : InProgressData) (view : VMInstanceView)
    (hcur : d.stage.current = "in_progress")
    (hip : d.stage.in_progress = some ip)
    (hview : env.instanceView = .ok view)
    (htgt : (vmStateFromPower d.target_power).terminal = true)
    (hdb : env.dbOk = .ok ())
    (hedit : env.editOk = .ok ())
    (hact : env.actionOk = .ok ()) :
    shownEstimates (poll env d).2 = [durationEstimate env.store d.vm_cfg ip.start_power] := by
  unfold poll pollBody
  rw [hview]
  dsimp only
  rw [if_neg (by rw [hcur]; decide)]
  dsimp only
  cases hipd : d.stage.in_progress with
  | none => rw [hipd] at hip; cases hip
  | some jp =>
    have hjp : jp = ip := by rw [hipd] at hip; cases hip; rfl
    subst hjp
    rw [hdb]
    dsimp only
    cases hps : powerStateOf view with
    | some p =>
      by_cases hterm : (vmStateFromPower p).terminal = false
      · rw [pollRest_nonterminal_eq env _ p _ _ hterm hedit]
        rfl
      · by_cases hpt : p = d.target_power
        · rw [pollRest_success_eq env _ p _ _ hterm (by exact hpt) hedit]
          rfl
        · rw [pollRest_act_eq env _ p _ _ hterm (by exact hpt)]
          unfold pollAct pollActTail
          dsimp only
          cases htp : d.target_power <;>
            first
              | (rw [htp] at htgt; exact absurd htgt (by decide))
              | (rw [hact, hedit]; rfl)
    | none =>
      rw [pollRest_none_eq]
      unfold pollAct pollActTail
      dsimp only
      cases htp : d.target_power <;>
        first
          | (rw [htp] at htgt; exact absurd htgt (by decide))
          | (rw [hact, hedit]; rfl)

/-- C6 amended: on a tick of an `in_progress` request, the estimate
shown is the arithmetic mean of the duration deltas of the FIRST
`min(N,10)` persisted `success` requests in collection order (the
query has no recency sort) sharing the same VM and `startPower` — the
`targetPower` is NOT constrained — and no estimate is shown exactly
when no such document exists. -/
theorem shown_estimate_mean_of_first_ten (env : Env) (d : PowerRequestData)
    (ip : InProgressData) (view : VMInstanceView)
    (hcur : d.stage.current = "in_progress")
    (hip : d.stage.in_progress = some ip)
    (hview : env.instanceView = .ok view)
    (htgt : (vmStateFromPower d.target_power).terminal = true)
    (hdb : env.dbOk = .ok ())
    (hedit : env.editOk = .ok ())
    (hact : env.actionOk = .ok ()) :
    shownEstimates (poll env d).2 =
      [if ((histMatches env.store d.vm_cfg ip.start_power).take 10) = [] then none
       else some (((((histMatches env.store d.vm_cfg ip.start_power).take 10).map histDelta).sum : ℚ) /
         ((((histMatches env.store d.vm_cfg ip.start_power).take 10).length : ℚ)))] := by
  rw [poll_shows_duration_estimate env d ip view hcur hip hview htgt hdb hedit hact,
    durationEstimate_eq_mean]

/-- Witness for C6's amended theorem: one matching history document
(60000 ms delta) yields the shown estimate 60000 ms. -/
theorem shown_estimate_mean_of_first_ten_witness :
    shownEstimates (poll (envAllOk [histDocStopped] viewDeallocating 130000) reqDeall).2 =
      [if ((histMatches [histDocStopped] reqDeall.vm_cfg (some VMPowerState.Running)).take 10) = [] then none
       else some (((((histMatches [histDocStopped] reqDeall.vm_cfg (some VMPowerState.Running)).take 10).map histDelta).sum : ℚ) /
         ((((histMatches [histDocStopped] reqDeall.vm_cfg (some VMPowerState.Running)).take 10).length : ℚ)))] :=
  shown_estimate_mean_of_first_ten (envAllOk [histDocStopped] viewDeallocating 130000)
    reqDeall { time := 100000, start_power := some .Running } viewDeallocating
    rfl rfl rfl (by decide) rfl rfl rfl

/-- C6 counterexample: the history query does not constrain
`targetPower`: with a single prior success sharing only the VM and
`startPower` (it targeted Stopped, the polled request targets
Deallocated), the spec's pair count is zero — so the claim says no
estimate — yet the tick shows the 60000 ms estimate taken from that
document. -/
theorem estimate_ignores_target_power_cex :
    specPairMatches [histDocStopped] reqDeall (some VMPowerState.Running) = [] ∧
    shownEstimates (poll (envAllOk [histDocStopped] viewDeallocating 130000) reqDeall).2 =
      [some (60000 : ℚ)] := by
  constructor
  · rfl
  · rw [poll_shows_duration_estimate (envAllOk [histDocStopped] viewDeallocating 130000)
      reqDeall { time := 100000, start_power := some VMPowerState.Running } viewDeallocating
      rfl rfl rfl (by decide) rfl rfl rfl]
    show [durationEstimate [histDocStopped] reqDeall.vm_cfg (some VMPowerState.Running)] =
      [some (60000 : ℚ)]
    rw [show durationEstimate [histDocStopped] reqDeall.vm_cfg (some VMPowerState.Running) =
      some ((((60000 : ℤ)) : ℚ) / (((1 : ℕ)) : ℚ)) from rfl]
    norm_num
